import Mathlib

/-!
Verification of the Vulkan bootstrap core of the `sprocket` repository.

The development shallowly embeds the functions of
`sprocket/src/graphics/vulkan/mod.rs` (device discovery and scoring, queue
family resolution, the `init` construction sequence and the teardown order of
`Drop for VulkanContext`) together with the deferred-destruction resource
manager described by the specification.  Driver responses (queue family
tables, surface-support answers, extension lists, swapchain support) are
modelled as fields of a `PhysicalDevice` record, so every embedded function
is a pure, executable Lean function of the data the driver would have
returned.
-/

set_option autoImplicit false

/-- One row of `get_physical_device_queue_family_properties`: whether the
family's queue flags contain GRAPHICS and COMPUTE. -/
structure QueueFamilyProps where
  graphics : Bool
  compute : Bool
deriving DecidableEq

/-- The two image-count bounds of `vk::SurfaceCapabilitiesKHR` read by
`rate_device`; `maxImageCount = 0` means unbounded. -/
structure SurfaceCapabilities where
  minImageCount : Nat
  maxImageCount : Nat
deriving DecidableEq

/-- A surface format entry; `rate_device` only tests the list for emptiness. -/
structure SurfaceFormatKHR where
  format : Nat
  colorSpace : Nat
deriving DecidableEq

/-- A present mode entry; `rate_device` only tests the list for emptiness. -/
structure PresentModeKHR where
  mode : Nat
deriving DecidableEq

/-- The device type and limits read by `rate_device` from
`get_physical_device_properties`. -/
inductive PhysicalDeviceType where
  | discreteGpu
  | integratedGpu
  | virtualGpu
  | cpu
  | other
deriving DecidableEq

/-- The four limits `rate_device` adds to the score. -/
structure PhysicalDeviceLimits where
  maxFramebufferHeight : Nat
  maxFramebufferWidth : Nat
  maxImageDimension2D : Nat
  maxColorAttachments : Nat
deriving DecidableEq

/-- Subset of `vk::PhysicalDeviceProperties` used by `rate_device`. -/
structure PhysicalDeviceProperties where
  deviceType : PhysicalDeviceType
  limits : PhysicalDeviceLimits
deriving DecidableEq

/-- A candidate GPU together with everything the driver reports about it
during discovery: its queue family table, the per-family answers of
`get_physical_device_surface_support` (the code maps a query error to
`false` via `unwrap_or(false)`, so a plain `Bool` per family is exact, and
an index beyond the list answers `false`), the supported device extensions
(`extensionQueryOk = false` models `enumerate_device_extension_properties`
failing), the reply of `Swapchain::query_support` (`none` models a query
error), and its properties. -/
structure PhysicalDevice where
  families : List QueueFamilyProps
  surfaceSupport : List Bool
  extensionQueryOk : Bool
  availableExtensions : List String
  swapchainSupport : Option (SurfaceCapabilities × List SurfaceFormatKHR × List PresentModeKHR)
  properties : PhysicalDeviceProperties
deriving DecidableEq

/-- Result record of `QueueFamilies::find` (mod.rs lines 54-59). -/
structure QueueFamilies where
  graphics : Option Nat
  present : Option Nat
  compute : Option Nat
  present_support : Bool
deriving DecidableEq

/-- The body of the `for (i, family) in families.iter().enumerate()` loop of
`QueueFamilies::find` (mod.rs lines 73-89).  The three sequential
assignments of the Rust loop body are written as one record: `graphics` is
overwritten whenever the family's flags contain GRAPHICS, `present` and
`present_support` whenever the surface-support query for family `x.1`
answers true, and `compute` whenever the flags contain COMPUTE. -/
def findStep (d : PhysicalDevice) (acc : QueueFamilies) (x : Nat × QueueFamilyProps) :
    QueueFamilies :=
  { graphics := if x.2.graphics then some x.1 else acc.graphics
    present := if d.surfaceSupport.getD x.1 false then some x.1 else acc.present
    compute := if x.2.compute then some x.1 else acc.compute
    present_support := if d.surfaceSupport.getD x.1 false then true else acc.present_support }

/-- `QueueFamilies::find` (mod.rs lines 62-97): scan the queue family table
once, starting from all-`none`, folding `findStep` over the indexed list. -/
def QueueFamilies.find (d : PhysicalDevice) : QueueFamilies :=
  d.families.enum.foldl (findStep d) ⟨none, none, none, false⟩

/-- Modelled from the spec: the constant `graphics::SWAPCHAIN_IMAGE_COUNT`
is defined in `sprocket/src/graphics/mod.rs`, which is absent from the
sources; the specification's scenario section fixes the requested image
count at 3. -/
def SWAPCHAIN_IMAGE_COUNT : Nat := 3

/-- `rate_device` (mod.rs lines 325-404): score a candidate, returning 0
(disqualified) if the extension query fails, a required extension is
missing, no graphics family or no present-capable family was found,
`present_support` is false, the swapchain-support query fails, the image
count bounds exclude `SWAPCHAIN_IMAGE_COUNT`, or the format or present-mode
list is empty; otherwise 1, plus 500 for a discrete GPU, plus the scaled
limits.  The sum is a `u32` in the source, so it is reduced mod `2 ^ 32`. -/
def rate_device (extensions : List String) (d : PhysicalDevice) : Nat :=
  if d.extensionQueryOk = false then 0
  else if (extensions.all fun e => d.availableExtensions.contains e) = false then 0
  else if (QueueFamilies.find d).graphics = none then 0
  else if (QueueFamilies.find d).present = none then 0
  else if (QueueFamilies.find d).present_support = false then 0
  else
    match d.swapchainSupport with
    | none => 0
    | some (capabilities, formats, present_modes) =>
      if SWAPCHAIN_IMAGE_COUNT < capabilities.minImageCount
          ∨ (capabilities.maxImageCount ≠ 0
              ∧ capabilities.maxImageCount < SWAPCHAIN_IMAGE_COUNT) then 0
      else if formats.isEmpty then 0
      else if present_modes.isEmpty then 0
      else
        ((1 + (if d.properties.deviceType = PhysicalDeviceType.discreteGpu then 500 else 0))
            + d.properties.limits.maxFramebufferHeight / 10
            + d.properties.limits.maxFramebufferWidth / 10
            + d.properties.limits.maxImageDimension2D / 10
            + d.properties.limits.maxColorAttachments) % (2 ^ 32)

/-- Rust's `Iterator::max_by`: reduce with `cmp::max_by`, which keeps the
accumulator exactly when the comparator applied to (accumulator, next)
answers `Greater`, and otherwise takes the next element (so on `Equal` the
later element wins).  `none` on an empty list. -/
def iterMaxBy {α : Type} (c : α → α → Ordering) : List α → Option α
  | [] => none
  | x :: xs => some (xs.foldl (fun acc y => if c acc y = Ordering.gt then acc else y) x)

/-- `find_physical_device` (mod.rs lines 406-436): score every enumerated
device, keep the ones with score > 0, and reduce with `max_by` under the
comparator written in the source, `|(_, prev_score), (_, score)| score.cmp(prev_score)`
- that is, the comparator applied to (accumulator, next) compares
next's score against the accumulator's.  On success the queue families of
the chosen device are recomputed, exactly as in the source. -/
def find_physical_device (extensions : List String) (devices : List PhysicalDevice) :
    Except String (PhysicalDevice × QueueFamilies) :=
  match iterMaxBy (fun prev x => compare x.2 prev.2)
      ((devices.map fun d => (d, rate_device extensions d)).filter
        fun x => decide (0 < x.2)) with
  | none => Except.error "Unable to find suitable GPU"
  | some best => Except.ok (best.1, QueueFamilies.find best.1)

/-- The device extension list requested by `init` (mod.rs line 105). -/
def deviceExtensions : List String := ["VK_KHR_swapchain"]

deriving instance DecidableEq for Except

/-- A GPU object created (and possibly destroyed) by the context; this is
the vocabulary of the construction/destruction event traces. -/
inductive VkObject where
  | inst
  | debugMessenger
  | surface
  | device
  | swapchain
  | renderpass
  | pipeline
  | framebuffer (i : Nat)
  | commandpool
  | commandbuffer (i : Nat)
deriving DecidableEq

/-- The clear color of the pre-recorded render pass, `math::Vec4` in the
source.  The `f32` literals of `Vec4::new(0.0, 0.0, 0.01, 1.0)` (mod.rs
line 175) are modelled as the written rationals, abstracting the `f32`
rounding of `0.01`; every claim treats the clear color as one opaque
fixed constant, so only its identity matters. -/
structure Vec4 where
  x : Rat
  y : Rat
  z : Rat
  w : Rat
deriving DecidableEq

/-- The fixed clear color used when recording every command buffer. -/
def clearColor : Vec4 := ⟨0, 0, 1 / 100, 1⟩

/-- One event of the construction, recording or destruction history of the
graphics context.  `createPool` carries the queue family index and the two
boolean flags of `CommandPool::new` (transient, reset-individual);
`allocPrimary` carries the number of primary command buffers allocated at
once; the `cmd*` events are the recording commands issued into command
buffer `buf`. -/
inductive Event where
  | create (o : VkObject)
  | createPool (family : Nat) (transient resetIndividual : Bool)
  | allocPrimary (count : Nat)
  | destroy (o : VkObject)
  | waitIdle
  | cmdBegin (buf : Nat)
  | cmdBeginRenderPass (buf fb : Nat) (clear : Vec4)
  | cmdBindPipeline (buf : Nat)
  | cmdDraw (buf : Nat)
  | cmdEndRenderPass (buf : Nat)
  | cmdEnd (buf : Nat)
deriving DecidableEq

/-- Modelled from the spec: `swapchain.rs` is absent from the sources; per
the teardown contract, dropping the `Swapchain` wrapper destroys its GPU
object. -/
def Swapchain.dropTrace : List Event := [Event.destroy VkObject.swapchain]

/-- Modelled from the spec: `renderpass.rs` is absent from the sources;
dropping the `RenderPass` wrapper destroys its GPU object. -/
def RenderPass.dropTrace : List Event := [Event.destroy VkObject.renderpass]

/-- Modelled from the spec: `pipeline.rs` is absent from the sources;
dropping the `Pipeline` wrapper destroys its GPU object. -/
def Pipeline.dropTrace : List Event := [Event.destroy VkObject.pipeline]

/-- Modelled from the spec: `framebuffer.rs` is absent from the sources;
dropping the `Framebuffer` wrapper for image `i` destroys its GPU object. -/
def Framebuffer.dropTrace (i : Nat) : List Event := [Event.destroy (VkObject.framebuffer i)]

/-- Modelled from the spec: `commandbuffer.rs` is absent from the sources;
dropping the `CommandPool` wrapper destroys its GPU object. -/
def CommandPool.dropTrace : List Event := [Event.destroy VkObject.commandpool]

/-- Modelled from the spec: `commandbuffer.rs` is absent from the sources;
dropping the `CommandBuffer` wrapper for image `i` releases its GPU object. -/
def CommandBuffer.dropTrace (i : Nat) : List Event := [Event.destroy (VkObject.commandbuffer i)]

/-- Drop of `VulkanData` (mod.rs lines 45-52): Rust drops the fields of a
struct in declaration order - `swapchain`, `renderpass`, `pipeline`,
`framebuffers` (a `Vec`, elements front to back), `commandpool`,
`commandbuffers` (front to back). -/
def VulkanData.dropTrace (nFb nCb : Nat) : List Event :=
  Swapchain.dropTrace ++ RenderPass.dropTrace ++ Pipeline.dropTrace
    ++ (List.range nFb).flatMap Framebuffer.dropTrace
    ++ CommandPool.dropTrace
    ++ (List.range nCb).flatMap CommandBuffer.dropTrace

/-- `Drop for VulkanContext` (mod.rs lines 495-510): `self.data = None`
drops the `VulkanData` first, then `device_wait_idle`, then
`destroy_device`, `destroy_surface`, `destroy_debug_utils_messenger`,
`destroy_instance`, in that source order. -/
def VulkanContext.dropTrace (nFb nCb : Nat) : List Event :=
  VulkanData.dropTrace nFb nCb
    ++ [Event.waitIdle, Event.destroy VkObject.device, Event.destroy VkObject.surface,
        Event.destroy VkObject.debugMessenger, Event.destroy VkObject.inst]

/-- Which steps of `init` succeed, and what the driver-dependent inputs
are: the enumerated physical devices and the swapchain's image count.  A
`false` flag makes the corresponding fallible call of `init` (mod.rs lines
100-207) fail; `framebuffersOk = false` fails the framebuffer loop at its
first iteration and `recordOk = false` fails the first `begin()` of the
pre-recording loop. -/
structure InitEnv where
  entryOk : Bool
  layersOk : Bool
  instanceOk : Bool
  debugOk : Bool
  surfaceOk : Bool
  devices : List PhysicalDevice
  deviceOk : Bool
  swapchainOk : Bool
  imageCount : Nat
  renderpassOk : Bool
  pipelineOk : Bool
  framebuffersOk : Bool
  commandpoolOk : Bool
  buffersOk : Bool
  recordOk : Bool
deriving DecidableEq

/-- The recording of command buffer `i` (mod.rs lines 170-181): begin, begin
the render pass against framebuffer `i` with the fixed clear color, bind
the pipeline, one draw call, end the render pass, end. -/
def recordOne (i : Nat) : List Event :=
  [Event.cmdBegin i,
   Event.cmdBeginRenderPass i i clearColor,
   Event.cmdBindPipeline i,
   Event.cmdDraw i,
   Event.cmdEndRenderPass i,
   Event.cmdEnd i]

/-- The events of `init` up to and including surface creation. -/
def preSelect : List Event :=
  [Event.create VkObject.inst, Event.create VkObject.debugMessenger,
   Event.create VkObject.surface]

/-- The outcome of `init`: a constructed context, a returned error
(`Err` in the source), or a Rust panic (the `.unwrap()` calls on the queue
family options), which in Rust is a distinct control path from returning an
error. -/
inductive InitOutcome where
  | ok
  | err (msg : String)
  | panicked
deriving DecidableEq

/-- `init` (mod.rs lines 100-207) as a trace transformer: the event history
it produces and its result.  On every failure the function returns the
error and Rust drops the live locals in reverse declaration order; of
those, only the wrapper types (`Swapchain`, `RenderPass`, `Pipeline`,
`Framebuffer`, `CommandPool`, `CommandBuffer`) destroy a GPU object when
dropped - the `ash` handles (instance, debug messenger, surface, logical
device) are destroyed solely by `Drop for VulkanContext` (mod.rs lines
495-510), which never runs on the error path because no context value was
constructed.  `create_device` (mod.rs lines 448-450) calls `.unwrap()` on
the `graphics` and `present` families before anything else, modelled by the
match whose fallthrough is the distinguished `panicked` outcome. -/
def init (env : InitEnv) : List Event × InitOutcome :=
  if env.entryOk = false then ([], InitOutcome.err "Failed to create vulkan entry") else
  if env.layersOk = false then ([], InitOutcome.err "Could not find validation layer") else
  if env.instanceOk = false then ([], InitOutcome.err "Failed to create instance") else
  if env.debugOk = false then
    ([Event.create VkObject.inst], InitOutcome.err "Failed to create debug utils messenger") else
  if env.surfaceOk = false then
    ([Event.create VkObject.inst, Event.create VkObject.debugMessenger],
     InitOutcome.err "Failed to create window surface") else
  match find_physical_device deviceExtensions env.devices with
  | Except.error e => (preSelect, InitOutcome.err e)
  | Except.ok sel =>
    match sel.2.graphics, sel.2.present with
    | some g, some _ =>
      if env.deviceOk = false then (preSelect, InitOutcome.err "Failed to create logical device") else
      if env.swapchainOk = false then
        (preSelect ++ [Event.create VkObject.device],
         InitOutcome.err "Failed to create swapchain") else
      if env.renderpassOk = false then
        (preSelect ++ [Event.create VkObject.device, Event.create VkObject.swapchain]
          ++ Swapchain.dropTrace,
         InitOutcome.err "Failed to create renderpass") else
      if env.pipelineOk = false then
        (preSelect ++ [Event.create VkObject.device, Event.create VkObject.swapchain,
           Event.create VkObject.renderpass]
          ++ RenderPass.dropTrace ++ Swapchain.dropTrace,
         InitOutcome.err "Failed to create pipeline") else
      if env.framebuffersOk = false then
        (preSelect ++ [Event.create VkObject.device, Event.create VkObject.swapchain,
           Event.create VkObject.renderpass, Event.create VkObject.pipeline]
          ++ Pipeline.dropTrace ++ RenderPass.dropTrace ++ Swapchain.dropTrace,
         InitOutcome.err "Failed to create framebuffer") else
      if env.commandpoolOk = false then
        (preSelect ++ [Event.create VkObject.device, Event.create VkObject.swapchain,
           Event.create VkObject.renderpass, Event.create VkObject.pipeline]
          ++ (List.range env.imageCount).map (fun i => Event.create (VkObject.framebuffer i))
          ++ (List.range env.imageCount).flatMap Framebuffer.dropTrace
          ++ Pipeline.dropTrace ++ RenderPass.dropTrace ++ Swapchain.dropTrace,
         InitOutcome.err "Failed to create command pool") else
      if env.buffersOk = false then
        (preSelect ++ [Event.create VkObject.device, Event.create VkObject.swapchain,
           Event.create VkObject.renderpass, Event.create VkObject.pipeline]
          ++ (List.range env.imageCount).map (fun i => Event.create (VkObject.framebuffer i))
          ++ [Event.createPool g false false]
          ++ CommandPool.dropTrace
          ++ (List.range env.imageCount).flatMap Framebuffer.dropTrace
          ++ Pipeline.dropTrace ++ RenderPass.dropTrace ++ Swapchain.dropTrace,
         InitOutcome.err "Failed to allocate command buffers") else
      if env.recordOk = false then
        (preSelect ++ [Event.create VkObject.device, Event.create VkObject.swapchain,
           Event.create VkObject.renderpass, Event.create VkObject.pipeline]
          ++ (List.range env.imageCount).map (fun i => Event.create (VkObject.framebuffer i))
          ++ [Event.createPool g false false, Event.allocPrimary env.imageCount]
          ++ (List.range env.imageCount).flatMap CommandBuffer.dropTrace
          ++ CommandPool.dropTrace
          ++ (List.range env.imageCount).flatMap Framebuffer.dropTrace
          ++ Pipeline.dropTrace ++ RenderPass.dropTrace ++ Swapchain.dropTrace,
         InitOutcome.err "Failed to begin command buffer") else
      (preSelect ++ [Event.create VkObject.device, Event.create VkObject.swapchain,
         Event.create VkObject.renderpass, Event.create VkObject.pipeline]
        ++ (List.range env.imageCount).map (fun i => Event.create (VkObject.framebuffer i))
        ++ [Event.createPool g false false, Event.allocPrimary env.imageCount]
        ++ (List.range env.imageCount).flatMap recordOne,
       InitOutcome.ok)
    | _, _ => (preSelect, InitOutcome.panicked)

/-- All the fallible steps of `init` succeed (driver enumeration included). -/
def InitEnv.allOk (env : InitEnv) : Bool :=
  env.entryOk && (env.layersOk && (env.instanceOk && (env.debugOk && (env.surfaceOk &&
    ((find_physical_device deviceExtensions env.devices).isOk &&
      (env.deviceOk && (env.swapchainOk && (env.renderpassOk && (env.pipelineOk &&
        (env.framebuffersOk && (env.commandpoolOk && (env.buffersOk && env.recordOk))))))))))))

/-- The GPU objects created by a trace, in creation order. -/
def createdObjs : List Event → List VkObject
  | [] => []
  | Event.create o :: t => o :: createdObjs t
  | Event.createPool _ _ _ :: t => VkObject.commandpool :: createdObjs t
  | Event.allocPrimary n :: t =>
      (List.range n).map VkObject.commandbuffer ++ createdObjs t
  | _ :: t => createdObjs t

/-- The GPU objects destroyed by a trace, in destruction order. -/
def destroyedObjs : List Event → List VkObject
  | [] => []
  | Event.destroy o :: t => o :: destroyedObjs t
  | _ :: t => destroyedObjs t

/-- Recognizer for destruction events. -/
def isDestroyEvent : Event → Bool
  | Event.destroy _ => true
  | _ => false

/-- Recognizer for the command-buffer allocation event. -/
def isAllocEvent : Event → Bool
  | Event.allocPrimary _ => true
  | _ => false

/-- Recognizer for begin-recording events. -/
def isCmdBeginEvent : Event → Bool
  | Event.cmdBegin _ => true
  | _ => false

/-- Recognizer for draw-call events. -/
def isCmdDrawEvent : Event → Bool
  | Event.cmdDraw _ => true
  | _ => false

/-- Index of the first occurrence of an event in a trace. -/
def eventIdx (e : Event) (t : List Event) : Nat := t.findIdx (fun x => x == e)

/-- The teardown ordering asserted by the specification, evaluated on a
trace: the device is idled before any destruction begins, and the
destruction order is command pool and buffers, then framebuffers,
pipeline, render pass, swapchain, surface, debug messenger, logical
device, instance. -/
def claimedTeardownOrder (t : List Event) : Bool :=
  (t.take (t.findIdx isDestroyEvent)).contains Event.waitIdle
  && decide (eventIdx (Event.destroy VkObject.commandpool) t
      < eventIdx (Event.destroy (VkObject.framebuffer 0)) t)
  && decide (eventIdx (Event.destroy (VkObject.commandbuffer 0)) t
      < eventIdx (Event.destroy (VkObject.framebuffer 0)) t)
  && decide (eventIdx (Event.destroy (VkObject.framebuffer 0)) t
      < eventIdx (Event.destroy VkObject.pipeline) t)
  && decide (eventIdx (Event.destroy VkObject.pipeline) t
      < eventIdx (Event.destroy VkObject.renderpass) t)
  && decide (eventIdx (Event.destroy VkObject.renderpass) t
      < eventIdx (Event.destroy VkObject.swapchain) t)
  && decide (eventIdx (Event.destroy VkObject.swapchain) t
      < eventIdx (Event.destroy VkObject.surface) t)
  && decide (eventIdx (Event.destroy VkObject.surface) t
      < eventIdx (Event.destroy VkObject.debugMessenger) t)
  && decide (eventIdx (Event.destroy VkObject.debugMessenger) t
      < eventIdx (Event.destroy VkObject.device) t)
  && decide (eventIdx (Event.destroy VkObject.device) t
      < eventIdx (Event.destroy VkObject.inst) t)

/-- Spec-side reading of `QueueFamilies::find` per the specification: the
FIRST index of the scan satisfying the predicate. -/
def firstIdxWhere {α : Type} (p : Nat × α → Bool) (l : List α) : Option Nat :=
  (l.enum.find? p).map Prod.fst

/-- The LAST index of the scan satisfying the predicate (what a
last-writer-wins loop records). -/
def lastIdxWhere {α : Type} (p : Nat × α → Bool) (l : List α) : Option Nat :=
  (l.enum.reverse.find? p).map Prod.fst

/-- Modelled from the spec: the `ResourceManager` implementation (together
with the rest of `graphics/vulkan/renderer`) is absent from the sources -
only its callers appear in `application.rs` - so its entry record is taken
from the specification: a resource handle (an opaque id), a reference
count, and a frame-age counter. -/
structure RMEntry where
  id : Nat
  refcount : Nat
  age : Nat
deriving DecidableEq

/-- Modelled from the spec: the manager state - the live entries, the next
fresh handle id, and the log of physically destroyed resource ids in
destruction order (the log models the irreversible destruction calls into
the driver, so "destroyed exactly once" is a count on this log). -/
structure ResourceManager where
  entries : List RMEntry
  nextId : Nat
  destroyed : List Nat
deriving DecidableEq

/-- The manager with no entries. -/
def ResourceManager.empty : ResourceManager := ⟨[], 0, []⟩

/-- Modelled from the spec: `register(resource)` adds an entry with age 0
and refcount 1 and returns its counted handle. -/
def ResourceManager.register (s : ResourceManager) : ResourceManager × Nat :=
  ({ entries := ⟨s.nextId, 1, 0⟩ :: s.entries, nextId := s.nextId + 1,
     destroyed := s.destroyed }, s.nextId)

/-- Modelled from the spec: `clone_handle(handle)` increments the entry's
refcount. -/
def ResourceManager.clone_handle (s : ResourceManager) (h : Nat) : ResourceManager :=
  { s with entries := s.entries.map fun e => if e.id = h then ⟨e.id, e.refcount + 1, e.age⟩ else e }

/-- Modelled from the spec: `release(handle)` decrements the entry's
refcount; at zero the entry merely becomes eligible for a later sweep. -/
def ResourceManager.release (s : ResourceManager) (h : Nat) : ResourceManager :=
  { s with entries := s.entries.map fun e => if e.id = h then ⟨e.id, e.refcount - 1, e.age⟩ else e }

/-- The age-advancing tick applied to every entry by a sweep. -/
def RMEntry.tick (e : RMEntry) : RMEntry := ⟨e.id, e.refcount, e.age + 1⟩

/-- An aged entry is reaped when its refcount is zero and its age exceeds
the threshold. -/
def RMEntry.expired (maxAge : Nat) (e : RMEntry) : Bool :=
  e.refcount == 0 && maxAge < e.age

/-- Modelled from the spec: `cleanup(max_age)` advances every entry's age by
one tick, then destroys and removes exactly the entries whose refcount is
zero and whose age exceeds `max_age`, appending their ids to the
destruction log. -/
def ResourceManager.cleanup (s : ResourceManager) (maxAge : Nat) : ResourceManager :=
  { entries := (s.entries.map RMEntry.tick).filter fun e => !(RMEntry.expired maxAge e)
    nextId := s.nextId
    destroyed :=
      s.destroyed ++ ((s.entries.map RMEntry.tick).filter fun e => RMEntry.expired maxAge e).map RMEntry.id }

/-- The manager state of the spec's scenario: one resource registered in a
fresh manager and then released once (its handle is id 0). -/
def afterRelease : ResourceManager :=
  (ResourceManager.empty.register.1).release ResourceManager.empty.register.2

/-- A fully capable discrete GPU: one graphics queue family that can
present, the swapchain extension available, adequate swapchain support,
minimal limits.  `rate_device` gives it 501. -/
def devA : PhysicalDevice :=
  { families := [⟨true, false⟩]
    surfaceSupport := [true]
    extensionQueryOk := true
    availableExtensions := ["VK_KHR_swapchain"]
    swapchainSupport := some (⟨1, 0⟩, [⟨0, 0⟩], [⟨0⟩])
    properties := ⟨PhysicalDeviceType.discreteGpu, ⟨0, 0, 0, 0⟩⟩ }

/-- The same device as `devA` but integrated: `rate_device` gives it 1. -/
def devB : PhysicalDevice :=
  { devA with properties := ⟨PhysicalDeviceType.integratedGpu, ⟨0, 0, 0, 0⟩⟩ }

/-- A device whose queue family table has graphics support at indices 0 and
1, for exercising which index the scan records. -/
def dTwoGraphics : PhysicalDevice :=
  { families := [⟨true, false⟩, ⟨true, false⟩]
    surfaceSupport := []
    extensionQueryOk := true
    availableExtensions := []
    swapchainSupport := none
    properties := ⟨PhysicalDeviceType.other, ⟨0, 0, 0, 0⟩⟩ }

/-- An environment in which every step of `init` succeeds except loading the
pipeline's shaders (the spec's missing-shader-file scenario). -/
def envShaderFail : InitEnv :=
  { entryOk := true, layersOk := true, instanceOk := true, debugOk := true, surfaceOk := true
    devices := [devA]
    deviceOk := true, swapchainOk := true, imageCount := 3
    renderpassOk := true, pipelineOk := false, framebuffersOk := true
    commandpoolOk := true, buffersOk := true, recordOk := true }

/-- An environment in which every step of `init` succeeds, with two
swapchain images. -/
def envAllOk : InitEnv :=
  { entryOk := true, layersOk := true, instanceOk := true, debugOk := true, surfaceOk := true
    devices := [devA]
    deviceOk := true, swapchainOk := true, imageCount := 2
    renderpassOk := true, pipelineOk := true, framebuffersOk := true
    commandpoolOk := true, buffersOk := true, recordOk := true }

/-- A one-entry manager state with an outstanding clone, for witnessing the
refcount-protection theorem. -/
def rmWitnessState : ResourceManager := ⟨[⟨7, 2, 100⟩], 8, []⟩

/-- A device like `devA` except that its surface requires at least 5
swapchain images, more than the requested count. -/
def devMinTooHigh : PhysicalDevice :=
  { devA with swapchainSupport := some (⟨5, 0⟩, [⟨0, 0⟩], [⟨0⟩]) }


/-! ## Helper lemmas -/

/-- The fold underlying `iterMaxBy` always returns the accumulator or a
list element. -/
lemma foldl_maxStep_mem {α : Type} (c : α → α → Ordering) :
    ∀ (l : List α) (acc : α),
      l.foldl (fun acc y => if c acc y = Ordering.gt then acc else y) acc ∈ acc :: l := by
  intro l
  induction l with
  | nil => intro acc; simp
  | cons y ys ih =>
    intro acc
    rw [List.foldl_cons]
    rcases List.mem_cons.mp (ih (if c acc y = Ordering.gt then acc else y)) with h1 | h2
    · rw [h1]
      by_cases hc : c acc y = Ordering.gt
      · simp [hc]
      · simp [hc]
    · exact List.mem_cons_of_mem _ (List.mem_cons_of_mem _ h2)

/-- `iterMaxBy` returns an element of its input list. -/
lemma iterMaxBy_mem {α : Type} (c : α → α → Ordering) {l : List α} {x : α}
    (h : iterMaxBy c l = some x) : x ∈ l := by
  cases l with
  | nil => simp [iterMaxBy] at h
  | cons y ys =>
    simp only [iterMaxBy, Option.some.injEq] at h
    rw [← h]
    exact foldl_maxStep_mem c ys y

/-- `iterMaxBy` answers `none` exactly on the empty list. -/
lemma iterMaxBy_eq_none {α : Type} (c : α → α → Ordering) (l : List α) :
    iterMaxBy c l = none ↔ l = [] := by
  cases l <;> simp [iterMaxBy]

/-- A candidate whose scan found no graphics family scores 0. -/
lemma rate_device_graphics_none (extensions : List String) (d : PhysicalDevice)
    (hg : (QueueFamilies.find d).graphics = none) : rate_device extensions d = 0 := by
  unfold rate_device
  split <;> simp_all

/-- A candidate whose scan found no present-capable family scores 0. -/
lemma rate_device_present_none (extensions : List String) (d : PhysicalDevice)
    (hp : (QueueFamilies.find d).present = none) : rate_device extensions d = 0 := by
  unfold rate_device
  split <;> simp_all

/-- A positively scored candidate has both a graphics and a present family. -/
lemma rate_device_pos (extensions : List String) (d : PhysicalDevice)
    (h : 0 < rate_device extensions d) :
    (QueueFamilies.find d).graphics.isSome = true
      ∧ (QueueFamilies.find d).present.isSome = true := by
  constructor
  · cases hg : (QueueFamilies.find d).graphics with
    | none => rw [rate_device_graphics_none extensions d hg] at h; omega
    | some v => rfl
  · cases hp : (QueueFamilies.find d).present with
    | none => rw [rate_device_present_none extensions d hp] at h; omega
    | some v => rfl

/-- On success, `find_physical_device` returns a device whose recomputed
queue families contain a graphics and a present family. -/
lemma find_ok_queueFamilies {extensions : List String} {devices : List PhysicalDevice}
    {sel : PhysicalDevice × QueueFamilies}
    (h : find_physical_device extensions devices = Except.ok sel) :
    sel.2.graphics.isSome = true ∧ sel.2.present.isSome = true := by
  unfold find_physical_device at h
  cases hM : iterMaxBy (fun prev x => compare x.2 prev.2)
      ((devices.map fun d => (d, rate_device extensions d)).filter
        fun x => decide (0 < x.2)) with
  | none => rw [hM] at h; exact absurd h (by simp)
  | some best =>
    rw [hM] at h
    simp only [Except.ok.injEq] at h
    have h2 := List.mem_filter.mp (iterMaxBy_mem _ hM)
    obtain ⟨d0, hd0, hEq⟩ := List.mem_map.mp h2.1
    have hpos : 0 < best.2 := of_decide_eq_true h2.2
    have hb2 : best.2 = rate_device extensions best.1 := by rw [← hEq]
    rw [hb2] at hpos
    rw [← h]
    exact rate_device_pos extensions best.1 hpos

/-- The only error `find_physical_device` ever returns. -/
lemma find_error_eq {extensions : List String} {devices : List PhysicalDevice} {e : String}
    (h : find_physical_device extensions devices = Except.error e) :
    e = "Unable to find suitable GPU" := by
  unfold find_physical_device at h
  cases hM : iterMaxBy (fun prev x => compare x.2 prev.2)
      ((devices.map fun d => (d, rate_device extensions d)).filter
        fun x => decide (0 < x.2)) with
  | none => rw [hM] at h; simp only [Except.error.injEq] at h; exact h.symm
  | some best => rw [hM] at h; exact absurd h (by simp)

/-- The `graphics` component of the queue family scan is an independent
last-writer fold over the indexed list. -/
lemma foldl_findStep_graphics (d : PhysicalDevice) :
    ∀ (l : List (Nat × QueueFamilyProps)) (acc : QueueFamilies),
      (l.foldl (findStep d) acc).graphics
        = l.foldl (fun a x => if x.2.graphics then some x.1 else a) acc.graphics := by
  intro l
  induction l with
  | nil => intro acc; rfl
  | cons x xs ih =>
    intro acc
    rw [List.foldl_cons, List.foldl_cons, ih]
    rfl

/-- The `present` component of the queue family scan is an independent
last-writer fold over the indexed list. -/
lemma foldl_findStep_present (d : PhysicalDevice) :
    ∀ (l : List (Nat × QueueFamilyProps)) (acc : QueueFamilies),
      (l.foldl (findStep d) acc).present
        = l.foldl (fun a x => if d.surfaceSupport.getD x.1 false then some x.1 else a) acc.present := by
  intro l
  induction l with
  | nil => intro acc; rfl
  | cons x xs ih =>
    intro acc
    rw [List.foldl_cons, List.foldl_cons, ih]
    rfl

/-- The `compute` component of the queue family scan is an independent
last-writer fold over the indexed list. -/
lemma foldl_findStep_compute (d : PhysicalDevice) :
    ∀ (l : List (Nat × QueueFamilyProps)) (acc : QueueFamilies),
      (l.foldl (findStep d) acc).compute
        = l.foldl (fun a x => if x.2.compute then some x.1 else a) acc.compute := by
  intro l
  induction l with
  | nil => intro acc; rfl
  | cons x xs ih =>
    intro acc
    rw [List.foldl_cons, List.foldl_cons, ih]
    rfl

/-- A last-writer-wins fold records the last matching element of the list
(the first matching element of its reverse). -/
lemma foldl_writeLast {β : Type} (p : β → Bool) (f : β → Nat) :
    ∀ (l : List β) (a : Option Nat),
      l.foldl (fun acc x => if p x then some (f x) else acc) a
        = ((l.reverse.find? p).map f).or a := by
  intro l
  induction l with
  | nil => intro a; rfl
  | cons x xs ih =>
    intro a
    rw [List.foldl_cons, ih, List.reverse_cons, List.find?_append]
    cases hxs : xs.reverse.find? p with
    | some y => simp
    | none =>
      by_cases hx : p x <;> simp [hx, List.find?]

/-! ## Claim theorems: device selection and queue families -/

/-- C1: evaluation of the selection at a two-candidate enumeration.  Both
candidates are viable; the discrete `devA` (enumerated first) scores 501
and the integrated `devB` scores 1, yet `find_physical_device` returns
`devB`: the comparator the source passes to `max_by` is reversed, so the
reduction keeps the candidate with the MINIMUM positive score (and on
equal scores the last enumerated), contradicting the claim that the
maximum-score candidate (first on ties) is selected. -/
theorem find_physical_device_picks_lowest_score :
    rate_device deviceExtensions devA = 501
      ∧ rate_device deviceExtensions devB = 1
      ∧ find_physical_device deviceExtensions [devA, devB]
          = Except.ok (devB, QueueFamilies.find devB) := by
  decide

/-- C6 counterexample: on a device whose families 0 and 1 both support
graphics, the scan records index 1, not the FIRST index 0 asserted by the
claim - each loop iteration overwrites the previously recorded family. -/
theorem queueFamilies_find_not_first_index :
    (QueueFamilies.find dTwoGraphics).graphics
      ≠ firstIdxWhere (fun x => x.2.graphics) dTwoGraphics.families := by
  decide

/-- C6 amended: `QueueFamilies::find` scans all families once and records
the LAST family index supporting graphics, the LAST index whose
surface-support query answers true, and the LAST index supporting compute;
it is a total function (it never fails) and absent capabilities yield
`none`. -/
theorem queueFamilies_find_records_last_index (d : PhysicalDevice) :
    (QueueFamilies.find d).graphics = lastIdxWhere (fun x => x.2.graphics) d.families
      ∧ (QueueFamilies.find d).present
          = lastIdxWhere (fun x => d.surfaceSupport.getD x.1 false) d.families
      ∧ (QueueFamilies.find d).compute = lastIdxWhere (fun x => x.2.compute) d.families := by
  unfold QueueFamilies.find lastIdxWhere
  refine ⟨?_, ?_, ?_⟩
  · rw [foldl_findStep_graphics,
      foldl_writeLast (fun x : Nat × QueueFamilyProps => x.2.graphics) Prod.fst]
    simp
  · rw [foldl_findStep_present,
      foldl_writeLast (fun x : Nat × QueueFamilyProps => d.surfaceSupport.getD x.1 false)
        Prod.fst]
    simp
  · rw [foldl_findStep_compute,
      foldl_writeLast (fun x : Nat × QueueFamilyProps => x.2.compute) Prod.fst]
    simp

/-- C7: `find_physical_device` fails - necessarily with the
no-suitable-GPU error - exactly when every enumerated candidate scores 0,
including the vacuous case of an empty enumeration. -/
theorem find_physical_device_error_iff_all_zero (extensions : List String)
    (devices : List PhysicalDevice) :
    find_physical_device extensions devices = Except.error "Unable to find suitable GPU"
      ↔ ∀ d ∈ devices, rate_device extensions d = 0 := by
  unfold find_physical_device
  cases hM : iterMaxBy (fun prev x => compare x.2 prev.2)
      ((devices.map fun d => (d, rate_device extensions d)).filter
        fun x => decide (0 < x.2)) with
  | none =>
    refine iff_of_true rfl ?_
    intro d hd
    have hnil := (iterMaxBy_eq_none _ _).mp hM
    have hmem : (d, rate_device extensions d) ∈
        devices.map fun d => (d, rate_device extensions d) :=
      List.mem_map_of_mem _ hd
    have := List.filter_eq_nil_iff.mp hnil _ hmem
    simpa using this
  | some best =>
    constructor
    · intro h
      exact absurd h (by simp)
    · intro hall
      exfalso
      have h2 := List.mem_filter.mp (iterMaxBy_mem _ hM)
      obtain ⟨d0, hd0, hEq⟩ := List.mem_map.mp h2.1
      have hpos : 0 < best.2 := of_decide_eq_true h2.2
      have hb2 : best.2 = rate_device extensions d0 := by rw [← hEq]
      rw [hb2] at hpos
      rw [hall d0 hd0] at hpos
      omega

/-- C8: during scoring, a candidate whose swapchain support reports an
image-count minimum above `SWAPCHAIN_IMAGE_COUNT`, a nonzero maximum below
it, an empty format list or an empty present-mode list is disqualified
(scores 0). -/
theorem rate_device_swapchain_disqualification (extensions : List String)
    (d : PhysicalDevice) (capabilities : SurfaceCapabilities)
    (formats : List SurfaceFormatKHR) (present_modes : List PresentModeKHR)
    (hs : d.swapchainSupport = some (capabilities, formats, present_modes))
    (hdisq : SWAPCHAIN_IMAGE_COUNT < capabilities.minImageCount
      ∨ (capabilities.maxImageCount ≠ 0
          ∧ capabilities.maxImageCount < SWAPCHAIN_IMAGE_COUNT)
      ∨ formats = [] ∨ present_modes = []) :
    rate_device extensions d = 0 := by
  unfold rate_device
  simp only [hs]
  rcases hdisq with h1 | h2 | h3 | h4
  · simp [h1]
  · simp [h2.1, h2.2]
  · simp [h3]
  · simp [h4]

/-- Witness for C8: a device requiring at least 5 swapchain images scores
0. -/
theorem rate_device_swapchain_disqualification_witness :
    rate_device deviceExtensions devMinTooHigh = 0 :=
  rate_device_swapchain_disqualification deviceExtensions devMinTooHigh
    ⟨5, 0⟩ [⟨0, 0⟩] [⟨0⟩] (by decide) (Or.inl (by decide))

/-! ## Claim theorems: teardown order -/

/-- The block an element contributes to a `flatMap` is a sublist of it. -/
lemma flatMap_sublist_of_mem {α β : Type} (f : α → List β) {l : List α} {a : α}
    (h : a ∈ l) : (f a).Sublist (l.flatMap f) := by
  induction l with
  | nil => cases h
  | cons x xs ih =>
    rw [List.flatMap_cons]
    rcases List.mem_cons.mp h with h1 | h2
    · rw [h1]
      exact List.sublist_append_left _ _
    · exact (ih h2).trans (List.sublist_append_right _ _)

/-- C2 counterexample: on the teardown trace of a context with one
framebuffer and one command buffer, the ordering asserted by the claim
(idle before any destruction; command pool/buffers, framebuffers,
pipeline, render pass, swapchain, surface, debug messenger, device,
instance) evaluates to false. -/
theorem teardown_claim_order_false :
    claimedTeardownOrder (VulkanContext.dropTrace 1 1) = false := by
  decide

/-- C2 amended: at teardown the `VulkanData`-owned objects are destroyed
FIRST, in field declaration order - swapchain, render pass, pipeline, each
framebuffer, command pool, each command buffer - and only then is the
device idled; after the idle wait the logical device is destroyed BEFORE
the surface, the debug messenger and the instance, in that order.  The
trace begins with the swapchain's destruction, so destruction begins
before the idle wait. -/
theorem teardown_actual_order (nFb nCb i j : Nat) (hi : i < nFb) (hj : j < nCb) :
    (VulkanContext.dropTrace nFb nCb).head? = some (Event.destroy VkObject.swapchain)
      ∧ [Event.destroy VkObject.swapchain, Event.destroy VkObject.renderpass,
          Event.destroy VkObject.pipeline, Event.destroy (VkObject.framebuffer i),
          Event.destroy VkObject.commandpool, Event.destroy (VkObject.commandbuffer j),
          Event.waitIdle, Event.destroy VkObject.device, Event.destroy VkObject.surface,
          Event.destroy VkObject.debugMessenger,
          Event.destroy VkObject.inst].Sublist (VulkanContext.dropTrace nFb nCb) := by
  constructor
  · rfl
  · have h1 : [Event.destroy VkObject.swapchain, Event.destroy VkObject.renderpass,
        Event.destroy VkObject.pipeline].Sublist
        (Swapchain.dropTrace ++ RenderPass.dropTrace ++ Pipeline.dropTrace) :=
      List.Sublist.refl _
    have h2 : (Framebuffer.dropTrace i).Sublist
        ((List.range nFb).flatMap Framebuffer.dropTrace) :=
      flatMap_sublist_of_mem Framebuffer.dropTrace (List.mem_range.mpr hi)
    have h3 : (CommandBuffer.dropTrace j).Sublist
        ((List.range nCb).flatMap CommandBuffer.dropTrace) :=
      flatMap_sublist_of_mem CommandBuffer.dropTrace (List.mem_range.mpr hj)
    exact (((h1.append h2).append (List.Sublist.refl CommandPool.dropTrace)).append h3).append
      (List.Sublist.refl [Event.waitIdle, Event.destroy VkObject.device,
        Event.destroy VkObject.surface, Event.destroy VkObject.debugMessenger,
        Event.destroy VkObject.inst])

/-- Witness for the amended teardown ordering at one framebuffer and one
command buffer. -/
theorem teardown_actual_order_witness :
    [Event.destroy VkObject.swapchain, Event.destroy VkObject.renderpass,
      Event.destroy VkObject.pipeline, Event.destroy (VkObject.framebuffer 0),
      Event.destroy VkObject.commandpool, Event.destroy (VkObject.commandbuffer 0),
      Event.waitIdle, Event.destroy VkObject.device, Event.destroy VkObject.surface,
      Event.destroy VkObject.debugMessenger,
      Event.destroy VkObject.inst].Sublist (VulkanContext.dropTrace 1 1) :=
  (teardown_actual_order 1 1 0 0 (by decide) (by decide)).2

/-! ## Claim theorems: initialization -/

/-- Case analysis of `init`: either every step succeeds and a context is
returned, or `init` returns an error - never the panic outcome - and some
step failed. -/
lemma init_master (env : InitEnv) :
    ((init env).2 = InitOutcome.ok ∧ env.allOk = true)
      ∨ ((init env).2 ≠ InitOutcome.ok ∧ (init env).2 ≠ InitOutcome.panicked
          ∧ env.allOk = false) := by
  obtain ⟨eOk, lOk, iOk, dOk, sOk, devs, devOk, swOk, n, rpOk, plOk, fbOk, cpOk, bufOk, recOk⟩ :=
    env
  cases eOk
  · exact Or.inr (by simp [init, InitEnv.allOk])
  cases lOk
  · exact Or.inr (by simp [init, InitEnv.allOk])
  cases iOk
  · exact Or.inr (by simp [init, InitEnv.allOk])
  cases dOk
  · exact Or.inr (by simp [init, InitEnv.allOk])
  cases sOk
  · exact Or.inr (by simp [init, InitEnv.allOk])
  cases hF : find_physical_device deviceExtensions devs
  case error e => exact Or.inr (by simp [init, InitEnv.allOk, hF, Except.isOk, Except.toBool])
  case ok sel =>
  obtain ⟨g, hg⟩ := Option.isSome_iff_exists.mp (find_ok_queueFamilies hF).1
  obtain ⟨p, hp⟩ := Option.isSome_iff_exists.mp (find_ok_queueFamilies hF).2
  cases devOk
  · exact Or.inr (by simp [init, InitEnv.allOk, hF, hg, hp, Except.isOk, Except.toBool])
  cases swOk
  · exact Or.inr (by simp [init, InitEnv.allOk, hF, hg, hp, Except.isOk, Except.toBool])
  cases rpOk
  · exact Or.inr (by simp [init, InitEnv.allOk, hF, hg, hp, Except.isOk, Except.toBool])
  cases plOk
  · exact Or.inr (by simp [init, InitEnv.allOk, hF, hg, hp, Except.isOk, Except.toBool])
  cases fbOk
  · exact Or.inr (by simp [init, InitEnv.allOk, hF, hg, hp, Except.isOk, Except.toBool])
  cases cpOk
  · exact Or.inr (by simp [init, InitEnv.allOk, hF, hg, hp, Except.isOk, Except.toBool])
  cases bufOk
  · exact Or.inr (by simp [init, InitEnv.allOk, hF, hg, hp, Except.isOk, Except.toBool])
  cases recOk
  · exact Or.inr (by simp [init, InitEnv.allOk, hF, hg, hp, Except.isOk, Except.toBool])
  exact Or.inl (by simp [init, InitEnv.allOk, hF, hg, hp, Except.isOk, Except.toBool])

/-- C3 counterexample: with a missing shader file, `init` does fail with
the pipeline error, but the instance it created is never released - its
destruction exists only in `Drop for VulkanContext`, which cannot run
because no context value was returned - so "releases every GPU object
that was already created" is false. -/
theorem init_failure_leaks_instance :
    (init envShaderFail).2 = InitOutcome.err "Failed to create pipeline"
      ∧ VkObject.inst ∈ createdObjs (init envShaderFail).1
      ∧ VkObject.inst ∉ destroyedObjs (init envShaderFail).1 := by
  decide

/-- C3 amended: every failure at any step makes `init` return the error
and never a context (`init` succeeds exactly when every step succeeds),
but the abort releases only the wrapper-owned objects, in reverse creation
order; in the missing-shader scenario the render pass and the swapchain
are destroyed while the instance, debug messenger, surface and logical
device stay allocated. -/
theorem init_failure_behavior :
    (∀ env : InitEnv, (init env).2 = InitOutcome.ok ↔ env.allOk = true)
      ∧ (init envShaderFail).2 = InitOutcome.err "Failed to create pipeline"
      ∧ destroyedObjs (init envShaderFail).1 = [VkObject.renderpass, VkObject.swapchain]
      ∧ (createdObjs (init envShaderFail).1).filter
          (fun o => !((destroyedObjs (init envShaderFail).1).contains o))
          = [VkObject.inst, VkObject.debugMessenger, VkObject.surface, VkObject.device] := by
  refine ⟨?_, by decide, by decide, by decide⟩
  intro env
  rcases init_master env with ⟨h1, h2⟩ | ⟨h1, _, h3⟩
  · simp [h1, h2]
  · simp [h1, h3]

/-- Witness for the amended initialization behavior: with every step
succeeding, `init` returns a context. -/
theorem init_failure_behavior_witness : (init envAllOk).2 = InitOutcome.ok :=
  (init_failure_behavior.1 envAllOk).mpr (by decide)

/-- C10: a successful `find_physical_device` always returns queue families
with `graphics = Some` and `present = Some` (a candidate lacking either
scores 0 and is filtered out before selection), so the `.unwrap()` calls
of `init` and `create_device` never panic: `init` never reaches the panic
outcome for any environment. -/
theorem find_ok_graphics_present_no_panic :
    (∀ (extensions : List String) (devices : List PhysicalDevice)
        (sel : PhysicalDevice × QueueFamilies),
        find_physical_device extensions devices = Except.ok sel →
          sel.2.graphics.isSome = true ∧ sel.2.present.isSome = true)
      ∧ ∀ env : InitEnv, (init env).2 ≠ InitOutcome.panicked := by
  constructor
  · intro extensions devices sel h
    exact find_ok_queueFamilies h
  · intro env
    rcases init_master env with ⟨h1, _⟩ | ⟨_, h2, _⟩
    · rw [h1]
      simp
    · exact h2

/-- Witness for C10 at a concrete enumeration: the selected device's queue
families are both present. -/
theorem find_ok_graphics_present_witness :
    (QueueFamilies.find devA).graphics.isSome = true
      ∧ (QueueFamilies.find devA).present.isSome = true :=
  find_ok_graphics_present_no_panic.1 deviceExtensions [devA]
    (devA, QueueFamilies.find devA) (by decide)

/-- A pointwise-false predicate filters a list to nil. -/
lemma filter_eq_nil_of_pointwise {α : Type} (p : α → Bool) (l : List α)
    (h : ∀ a ∈ l, p a = false) : l.filter p = [] :=
  List.filter_eq_nil_iff.mpr (by intro a ha; rw [h a ha]; simp)

/-- Framebuffer-creation events are not allocation events. -/
lemma fbCreates_filter_alloc (l : List Nat) :
    ((l.map fun i => Event.create (VkObject.framebuffer i)).filter isAllocEvent) = [] := by
  apply filter_eq_nil_of_pointwise
  intro a ha
  obtain ⟨i, hi, hEq⟩ := List.mem_map.mp ha
  rw [← hEq]
  rfl

/-- Framebuffer-creation events are not begin-recording events. -/
lemma fbCreates_filter_begin (l : List Nat) :
    ((l.map fun i => Event.create (VkObject.framebuffer i)).filter isCmdBeginEvent) = [] := by
  apply filter_eq_nil_of_pointwise
  intro a ha
  obtain ⟨i, hi, hEq⟩ := List.mem_map.mp ha
  rw [← hEq]
  rfl

/-- Framebuffer-creation events are not draw events. -/
lemma fbCreates_filter_draw (l : List Nat) :
    ((l.map fun i => Event.create (VkObject.framebuffer i)).filter isCmdDrawEvent) = [] := by
  apply filter_eq_nil_of_pointwise
  intro a ha
  obtain ⟨i, hi, hEq⟩ := List.mem_map.mp ha
  rw [← hEq]
  rfl

/-- No recording event is an allocation event. -/
lemma recordBlock_filter_alloc (n : Nat) :
    ((List.range n).flatMap recordOne).filter isAllocEvent = [] := by
  apply filter_eq_nil_of_pointwise
  intro a ha
  obtain ⟨i, hi, hmem⟩ := List.mem_flatMap.mp ha
  simp only [recordOne, List.mem_cons, List.not_mem_nil, or_false] at hmem
  rcases hmem with h | h | h | h | h | h <;> (rw [h]; rfl)

/-- The begin-recording events of the pre-recording loop are exactly one
per image, in image order. -/
lemma recordBlock_filter_begin (n : Nat) :
    ((List.range n).flatMap recordOne).filter isCmdBeginEvent
      = (List.range n).map Event.cmdBegin := by
  induction n with
  | zero => rfl
  | succ m ih =>
    rw [List.range_succ, List.flatMap_append, List.filter_append, ih, List.map_append]
    rfl

/-- The draw events of the pre-recording loop are exactly one per image,
in image order. -/
lemma recordBlock_filter_draw (n : Nat) :
    ((List.range n).flatMap recordOne).filter isCmdDrawEvent
      = (List.range n).map Event.cmdDraw := by
  induction n with
  | zero => rfl
  | succ m ih =>
    rw [List.range_succ, List.flatMap_append, List.filter_append, ih, List.map_append]
    rfl

/-- C9: in a fully successful initialization, the command pool is created
on the selected device's graphics family with both flags false
(non-transient, non-reset-individual), exactly one batch of
`imageCount` primary command buffers is allocated, each image's buffer is
begun exactly once and draws exactly once, and buffer `i` records
precisely the fixed sequence - begin, begin render pass against
framebuffer `i` with the fixed clear color, bind pipeline, one draw, end
render pass, end - as a subsequence of the event history. -/
theorem init_records_fixed_sequence (env : InitEnv) (d : PhysicalDevice)
    (qf : QueueFamilies) (g : Nat) (hA : env.allOk = true)
    (hF : find_physical_device deviceExtensions env.devices = Except.ok (d, qf))
    (hg : qf.graphics = some g) :
    (init env).2 = InitOutcome.ok
      ∧ Event.createPool g false false ∈ (init env).1
      ∧ ((init env).1).filter isAllocEvent = [Event.allocPrimary env.imageCount]
      ∧ ((init env).1).filter isCmdBeginEvent
          = (List.range env.imageCount).map Event.cmdBegin
      ∧ ((init env).1).filter isCmdDrawEvent
          = (List.range env.imageCount).map Event.cmdDraw
      ∧ ∀ i, i < env.imageCount → (recordOne i).Sublist (init env).1 := by
  obtain ⟨p, hp2⟩ := Option.isSome_iff_exists.mp (find_ok_queueFamilies hF).2
  have hp3 : qf.present = some p := hp2
  simp only [InitEnv.allOk, Bool.and_eq_true] at hA
  obtain ⟨he, hl, hi2, hd, hs2, hFok, hdev, hsw, hrp, hpl, hfb, hcp, hbuf, hrec⟩ := hA
  have hinit : init env
      = (preSelect ++ [Event.create VkObject.device, Event.create VkObject.swapchain,
            Event.create VkObject.renderpass, Event.create VkObject.pipeline]
          ++ (List.range env.imageCount).map (fun i => Event.create (VkObject.framebuffer i))
          ++ [Event.createPool g false false, Event.allocPrimary env.imageCount]
          ++ (List.range env.imageCount).flatMap recordOne,
         InitOutcome.ok) := by
    simp [init, he, hl, hi2, hd, hs2, hF, hg, hp3, hdev, hsw, hrp, hpl, hfb, hcp, hbuf, hrec]
  rw [hinit]
  refine ⟨rfl, ?_, ?_, ?_, ?_, ?_⟩
  · simp [preSelect]
  · simp [preSelect, List.filter_append, isAllocEvent, fbCreates_filter_alloc,
      recordBlock_filter_alloc]
  · simp [preSelect, List.filter_append, isCmdBeginEvent, fbCreates_filter_begin,
      recordBlock_filter_begin]
  · simp [preSelect, List.filter_append, isCmdDrawEvent, fbCreates_filter_draw,
      recordBlock_filter_draw]
  · intro i hi
    exact List.Sublist.trans (flatMap_sublist_of_mem recordOne (List.mem_range.mpr hi))
      (List.sublist_append_right _ _)

/-- Witness for the recording theorem: with every step succeeding and two
swapchain images, the pool-creation event with the graphics family and
both flags false appears in the history. -/
theorem init_records_fixed_sequence_witness :
    Event.createPool 0 false false ∈ (init envAllOk).1 :=
  (init_records_fixed_sequence envAllOk devA (QueueFamilies.find devA) 0 (by decide)
    (by decide) (by decide)).2.1

/-! ## Claim theorems: resource manager -/

/-- While the sweep count stays at most `k`, the spec scenario's manager
still holds its one entry, aged by the number of sweeps, and has destroyed
nothing. -/
lemma cleanup_iterate_le (k i : Nat) (h : i ≤ k) :
    ((fun s => ResourceManager.cleanup s k)^[i]) afterRelease
      = ⟨[⟨0, 0, i⟩], 1, []⟩ := by
  induction i with
  | zero => rfl
  | succ m ih =>
    have hm : m ≤ k := by omega
    rw [Function.iterate_succ_apply', ih hm]
    have hlt : ¬ k < m + 1 := by omega
    simp [ResourceManager.cleanup, RMEntry.tick, RMEntry.expired, hlt]

/-- Once the entry is destroyed, further sweeps change nothing. -/
lemma cleanup_iterate_dead (k m : Nat) :
    ((fun s => ResourceManager.cleanup s k)^[m]) ⟨[], 1, [0]⟩ = ⟨[], 1, [0]⟩ := by
  induction m with
  | zero => rfl
  | succ m2 ih =>
    rw [Function.iterate_succ_apply', ih]
    rfl

/-- C4: in the register-release scenario, calling `cleanup k` at most `k`
times destroys nothing and calling it `k + 1` or more times destroys the
resource exactly once (the destruction log holds its handle exactly once,
never more); moreover every `cleanup maxAge` call advances every entry's
age by one tick and then destroys and removes exactly the entries whose
refcount is zero and whose age exceeds `maxAge`. -/
theorem resource_deferred_destroy_exactly_once :
    (∀ k nSweeps : Nat,
        (((fun s => ResourceManager.cleanup s k)^[nSweeps]) afterRelease).destroyed.count 0
          = if k + 1 ≤ nSweeps then 1 else 0)
      ∧ (∀ (s : ResourceManager) (maxAge : Nat),
          (s.cleanup maxAge).entries
              = (s.entries.map RMEntry.tick).filter (fun e => !(RMEntry.expired maxAge e))
            ∧ (s.cleanup maxAge).destroyed
              = s.destroyed
                  ++ ((s.entries.map RMEntry.tick).filter
                      (fun e => RMEntry.expired maxAge e)).map RMEntry.id) := by
  constructor
  · intro k nSweeps
    by_cases h : k + 1 ≤ nSweeps
    · rw [if_pos h]
      have hk : ((fun s => ResourceManager.cleanup s k)^[k + 1]) afterRelease
          = ⟨[], 1, [0]⟩ := by
        rw [Function.iterate_succ_apply', cleanup_iterate_le k k (le_refl k)]
        have hlt : k < k + 1 := by omega
        simp [ResourceManager.cleanup, RMEntry.tick, RMEntry.expired, hlt]
      have hsplit : nSweeps = (nSweeps - (k + 1)) + (k + 1) := by omega
      rw [hsplit, Function.iterate_add_apply, hk, cleanup_iterate_dead]
      rfl
    · rw [if_neg h]
      have hle : nSweeps ≤ k := by omega
      rw [cleanup_iterate_le k nSweeps hle]
      rfl
  · intro s maxAge
    exact ⟨rfl, rfl⟩

/-- C5: an entry with outstanding clones (refcount above zero) survives any
`cleanup` call whatever its age - it stays among the entries, merely aged
by one - and every id newly appended to the destruction log by the call
comes from an entry whose refcount was zero. -/
theorem resource_refcount_protects (maxAge : Nat) (s : ResourceManager) (e : RMEntry)
    (hmem : e ∈ s.entries) (hrc : e.refcount ≠ 0) :
    RMEntry.mk e.id e.refcount (e.age + 1) ∈ (s.cleanup maxAge).entries
      ∧ ∀ i ∈ (s.cleanup maxAge).destroyed,
          i ∈ s.destroyed ∨ ∃ e2, e2 ∈ s.entries ∧ e2.id = i ∧ e2.refcount = 0 := by
  constructor
  · have h1 : RMEntry.tick e ∈ s.entries.map RMEntry.tick := List.mem_map_of_mem _ hmem
    simp only [ResourceManager.cleanup]
    exact List.mem_filter.mpr ⟨h1, by simp [RMEntry.expired, hrc]⟩
  · intro i hi
    simp only [ResourceManager.cleanup, List.mem_append] at hi
    rcases hi with hi | hi
    · exact Or.inl hi
    · right
      obtain ⟨e1, he1, hEq⟩ := List.mem_map.mp hi
      have he1f := List.mem_filter.mp he1
      obtain ⟨e2, he2, hEq2⟩ := List.mem_map.mp he1f.1
      refine ⟨e2, he2, ?_, ?_⟩
      · rw [← hEq, ← hEq2]
        rfl
      · have hexp := he1f.2
        rw [← hEq2] at hexp
        simp [RMEntry.expired, RMEntry.tick] at hexp
        exact hexp.1

/-- Witness for the refcount protection: an entry with refcount 2 and age
100 survives a sweep with threshold 0. -/
theorem resource_refcount_protects_witness :
    RMEntry.mk 7 2 101 ∈ (rmWitnessState.cleanup 0).entries :=
  (resource_refcount_protects 0 rmWitnessState ⟨7, 2, 100⟩ (by decide) (by decide)).1
